import Mathlib

/-
Verification of the k6build repository against its specification.

The development shallowly embeds the Go code of the repository:
pure logic becomes Lean functions, interactions with the S3 store,
the HTTP stack and the filesystem become explicit environment
parameters (the outcome each external call would produce) and
explicit action traces (the requests the code issues).  Durations
and timestamps are modelled as integers (nanoseconds), matching
the int64 representation of time.Duration in Go.
-/

/-! ## Go error values

Modelled from the spec (section 7, Error wire format): the root k6build
package (not under src/) provides sentinel errors and NewWrappedError,
which wraps a sentinel code around an underlying cause; errors.Is walks
the chain.  GoError.plain models an error created by errors.New or
fmt.Errorf outside this taxonomy (for example a JSON decoding error);
GoError.nilError models a nil error value being used where an error is
expected (fmt.Errorf with a %w verb applied to nil). -/
inductive GoError where
  | sentinel (name : String)
  | wrapped (err : GoError) (cause : GoError)
  | plain (msg : String)
  | nilError
deriving Repr, DecidableEq

/-- Model of errors.Is for the error shapes in this repository: a target
sentinel is matched by itself and by anything that wraps it. -/
def errorsIs : GoError → GoError → Bool
  | .sentinel n, .sentinel m => n == m
  | .wrapped e c, t => errorsIs e t || errorsIs c t
  | _, _ => false

/-- Model of k6build.NewWrappedError (root package, modelled from the spec):
the result matches err and unwraps to cause. -/
def NewWrappedError (err cause : GoError) : GoError := .wrapped err cause

/-- Sentinel errors of pkg/api, the root package and pkg/store, modelled
from the spec error taxonomy (section 7); the packages defining them are
not under src/. -/
def ErrInvalidParameters : GoError := .sentinel "ErrInvalidParameters"

def ErrCannotSatisfy : GoError := .sentinel "ErrCannotSatisfy"

def ErrBuildFailed : GoError := .sentinel "ErrBuildFailed"

def ErrResolveFailed : GoError := .sentinel "ErrResolveFailed"

def ErrInvalidRequest : GoError := .sentinel "ErrInvalidRequest"

def ErrObjectNotFound : GoError := .sentinel "ErrObjectNotFound"

namespace Lock

/-! ## pkg/lock (src/pkg/lock/lock.go and src/pkg/lock/s3.go) -/

/-- Sentinel from src/pkg/lock/lock.go line 10 (name as in the source). -/
def ErrCofig : GoError := .sentinel "ErrCofig"

/-- Sentinel from src/pkg/lock/lock.go line 11. -/
def ErrLocking : GoError := .sentinel "ErrLocking"

/-- defaultLease, src/pkg/lock/s3.go line 21: one minute, in nanoseconds. -/
def defaultLease : Int := 60000000000

/-- defaultBackoff, src/pkg/lock/s3.go line 24: one second, in nanoseconds. -/
def defaultBackoff : Int := 1000000000

/-- defaultMaxLease, src/pkg/lock/s3.go line 27: five minutes, in nanoseconds. -/
def defaultMaxLease : Int := 300000000000

/-- S3Config, src/pkg/lock/s3.go lines 31 to 47.  The Client pointer field is
replaced by clientErr, the observable outcome of the client setup performed by
NewS3Lock: none when conf.Client is non-nil or s3client.New succeeds, and
some e when conf.Client is nil and s3client.New fails with e. -/
structure S3Config where
  clientErr : Option GoError
  bucket : String
  endpoint : String
  region : String
  lease : Int
  backoff : Int
  grace : Int
  maxLease : Int
deriving Repr, DecidableEq

/-- The S3Lock state built by NewS3Lock, src/pkg/lock/s3.go lines 51 to 58
(without the client pointer). -/
structure S3Lock where
  bucket : String
  lease : Int
  backoff : Int
  grace : Int
  maxLease : Int
deriving Repr, DecidableEq

/-- NewS3Lock, src/pkg/lock/s3.go lines 64 to 109. -/
def NewS3Lock (conf : S3Config) : Except GoError S3Lock :=
  if conf.bucket == "" then
    .error (.wrapped ErrCofig (.plain "bucket name cannot be empty"))
  else
    match conf.clientErr with
    | some _ => .error (.wrapped ErrCofig (.plain "error creating S3 client"))
    | none =>
      let backoff := if conf.backoff == 0 then defaultBackoff else conf.backoff
      let lease := if conf.lease == 0 then defaultLease else conf.lease
      let grace := if conf.grace == 0 then lease * 3 else conf.grace
      let maxLease := if conf.maxLease == 0 then defaultMaxLease else conf.maxLease
      .ok { bucket := conf.bucket, lease := lease, backoff := backoff,
            grace := grace, maxLease := maxLease }

/-- Outcome of an S3 PutObject call: success returns the new entity tag;
a conditional failure surfaces as an API error with code PreconditionFailed;
anything else (including a cancelled context) is some other error. -/
inductive S3PutResult where
  | ok (etag : String)
  | preconditionFailed
  | otherError (e : GoError)
deriving Repr, DecidableEq

/-- Attributes of the existing lock blob as returned by GetObjectAttributes:
its entity tag and last-modified timestamp (nanoseconds). -/
structure LockAttrs where
  etag : String
  lastModified : Int
deriving Repr, DecidableEq

/-- Environment of one S3Lock.Try attempt: the outcome the store produces for
the conditional create, for GetObjectAttributes, and for the opportunistic
conditional delete, plus the current time used by time.Since. -/
structure TryEnv where
  put : S3PutResult
  attrs : Except GoError LockAttrs
  delResult : Option GoError
  now : Int

/-- Observable result of S3Lock.Try: the acquired flag and error returned to
the caller, the entity tag captured for the release function and the updater
when the lock was acquired, and the IfMatch tag of the conditional delete
issued on the expired-lease path (none when no delete was attempted). -/
structure TryResult where
  acquired : Bool
  releaseETag : Option String
  err : Option GoError
  deleteAttempt : Option String
deriving Repr, DecidableEq

/-- S3Lock.Try, src/pkg/lock/s3.go lines 129 to 201.  On success the put
response entity tag is captured (line 151 and line 164).  On a
PreconditionFailed error the attributes of the existing blob are read; if
that read succeeds and the blob is older than the grace period a conditional
delete guarded by the observed entity tag is attempted, and its outcome
(env.delResult) is discarded by the source (line 189); the attempt returns
not acquired with a nil error.  Any other put error is wrapped in
ErrLocking. -/
def s3Try (grace : Int) (env : TryEnv) : TryResult :=
  match env.put with
  | .ok etag =>
      { acquired := true, releaseETag := some etag, err := none, deleteAttempt := none }
  | .preconditionFailed =>
      let del : Option String :=
        match env.attrs with
        | .ok a => if env.now - a.lastModified > grace then some a.etag else none
        | .error _ => none
      { acquired := false, releaseETag := none, err := none, deleteAttempt := del }
  | .otherError e =>
      { acquired := false, releaseETag := none, err := some (NewWrappedError ErrLocking e),
        deleteAttempt := none }

/-- Steps taken by the release closure returned by S3Lock.Try. -/
inductive ReleaseAction where
  | cancelUpdate
  | deleteObject (bucket key : String) (ifMatch : Option String)
deriving Repr, DecidableEq

/-- The release closure, src/pkg/lock/s3.go lines 157 to 170: cancel the
updater context, then DeleteObject guarded by the entity tag captured at
acquisition; a delete error is wrapped in ErrLocking, otherwise nil is
returned.  The function returns the ordered action trace and the error. -/
def release (bucket lockID etag : String) (deleteResult : Option GoError) :
    List ReleaseAction × Option GoError :=
  ([ReleaseAction.cancelUpdate, ReleaseAction.deleteObject bucket lockID (some etag)],
   deleteResult.map (fun e => NewWrappedError ErrLocking e))

/-- A PutObject request as issued by the lock code: bucket, key and the
conditional headers. -/
structure S3PutRequest where
  bucket : String
  key : String
  ifMatch : Option String
  ifNoneMatch : Option String
deriving Repr, DecidableEq

/-- One event observed by the updater goroutine: either its context is done,
or the ticker fires with the given elapsed time since start (tick.Sub(start))
and the store answers the renewal put with the given result. -/
inductive UpdaterEvent where
  | ctxDone
  | tick (elapsed : Int) (putResult : S3PutResult)
deriving Repr, DecidableEq

/-- updater, src/pkg/lock/s3.go lines 204 to 242, as the list of PutObject
requests it issues over a trace of events.  The lease parameter configures
the ticker; tick arrival is part of the event trace.  On ctx done it stops;
on a tick past maxLease it stops; otherwise it issues a conditional put
guarded by lockETag, the tag passed in at acquisition (line 233), and stops
on any put error.  The response of a successful put is discarded by the
source (line 227), so the guard never changes across ticks. -/
def updater (bucket lockID lockETag : String) (lease maxLease : Int) :
    List UpdaterEvent → List S3PutRequest
  | [] => []
  | .ctxDone :: _ => []
  | .tick elapsed res :: rest =>
    if elapsed > maxLease then []
    else
      { bucket := bucket, key := lockID, ifMatch := some lockETag, ifNoneMatch := none } ::
      match res with
      | .ok _ => updater bucket lockID lockETag lease maxLease rest
      | _ => []

/-- S3Lock.Lock, src/pkg/lock/s3.go lines 112 to 125: repeatedly Try; return
on error or on acquisition, otherwise sleep backoff and retry.  Time is made
explicit: the attempt at time t uses the environment env t, and the next
attempt happens at t + backoff.  Fuel bounds the number of retries modelled;
the result carries the time at which Lock returned. -/
def lockLoop (backoff grace : Int) (env : Int → TryEnv) :
    Nat → Int → Option (Int × TryResult)
  | 0, t =>
    let r := s3Try grace (env t)
    if r.err.isSome then some (t, r)
    else if r.acquired then some (t, r)
    else none
  | fuel + 1, t =>
    let r := s3Try grace (env t)
    if r.err.isSome then some (t, r)
    else if r.acquired then some (t, r)
    else lockLoop backoff grace env fuel (t + backoff)

end Lock

namespace Http

/-! ## Model of the net/http ResponseWriter

Go semantics (net/http documentation): Header() returns a map the handler
may mutate; the first call to WriteHeader commits the status code and sends
a snapshot of the header map; changing the header map after that call has
no effect on the wire.  Writing the body without an explicit WriteHeader
implicitly commits status 200.  The body item type is the element type the
handler streams (an encoded response value, or a byte). -/
structure ResponseWriter (β : Type) where
  headers : List (String × String)
  status : Option Nat
  sent : List (String × String)
  body : List β
deriving DecidableEq

/-- The writer handed to a handler before it does anything. -/
def ResponseWriter.empty {β : Type} : ResponseWriter β :=
  { headers := [], status := none, sent := [], body := [] }

/-- Header().Add(k, v): appends to the header map (no effect on the wire
once the status is committed). -/
def headerAdd {β : Type} (w : ResponseWriter β) (k v : String) : ResponseWriter β :=
  { w with headers := w.headers ++ [(k, v)] }

/-- WriteHeader(code): commits the status and snapshots the headers; a
second call is superfluous and ignored. -/
def writeHeader {β : Type} (w : ResponseWriter β) (code : Nat) : ResponseWriter β :=
  match w.status with
  | some _ => w
  | none => { w with status := some code, sent := w.headers }

/-- Writing one body item (one encoded response, or one copied byte);
commits status 200 first when nothing is committed yet. -/
def write {β : Type} (w : ResponseWriter β) (x : β) : ResponseWriter β :=
  let w := writeHeader w 200
  { w with body := w.body ++ [x] }

end Http

namespace Server

open Http

/-! ## pkg/server (src/unnamed/part_001, package server)

The request and response types come from pkg/api and the root package,
which are not under src/; they are modelled from the spec (sections 3
and 6): a build request carries platform, base-runner constraint and
dependency constraints; responses carry an optional artifact or resolved
version map plus an optional error. -/

structure Dependency where
  name : String
  constraints : String
deriving Repr, DecidableEq

structure BuildRequest where
  platform : String
  k6Constrains : String
  dependencies : List Dependency
deriving Repr, DecidableEq

structure Artifact where
  id : String
  url : String
  dependencies : List (String × String)
  platform : String
  checksum : String
deriving Repr, DecidableEq

structure BuildResponse where
  artifact : Option Artifact
  error : Option GoError
deriving Repr, DecidableEq

structure ResolveRequest where
  k6Constrains : String
  dependencies : List Dependency
deriving Repr, DecidableEq

structure ResolveResponse where
  dependencies : List (String × String)
  error : Option GoError
deriving Repr, DecidableEq

/-- addCacheHeader, src/unnamed/part_001 lines 129 to 135: adds the ETag
header with the artifact id, and for a nonzero cacheMaxAge a Cache-Control
header whose max-age is the duration truncated to whole seconds (durations
are nanoseconds; the truncation of math.Trunc on nonnegative values is
integer division). -/
def addCacheHeader (cacheMaxAge : Int) (w : ResponseWriter BuildResponse)
    (artifact : Artifact) : ResponseWriter BuildResponse :=
  let w := headerAdd w "ETag" artifact.id
  if cacheMaxAge == 0 then w
  else headerAdd w "Cache-Control" ("max-age=" ++ toString (cacheMaxAge / 1000000000))

/-- processBuildRequest, src/unnamed/part_001 lines 98 to 127: on success
add cache headers, status 200 and the artifact; on an error matching
ErrInvalidParameters, status 200 and an ErrCannotSatisfy wrapper; on any
other error, status 500 and an ErrBuildFailed wrapper.  The response is
encoded into the body at the end in every case. -/
def processBuildRequest (cacheMaxAge : Int) (w : ResponseWriter BuildResponse)
    (buildResult : Except GoError Artifact) : ResponseWriter BuildResponse :=
  match buildResult with
  | .ok artifact =>
      let w := addCacheHeader cacheMaxAge w artifact
      let w := writeHeader w 200
      write w { artifact := some artifact, error := none }
  | .error e =>
      if errorsIs e ErrInvalidParameters then
        let w := writeHeader w 200
        write w { artifact := none, error := some (NewWrappedError ErrCannotSatisfy e) }
      else
        let w := writeHeader w 500
        write w { artifact := none, error := some (NewWrappedError ErrBuildFailed e) }

/-- BuildPost, src/unnamed/part_001 lines 61 to 79: add the Content-Type
header, decode the JSON body rejecting unknown fields (the decode outcome
is the decoded input), and on a decode error answer 400 with an
ErrInvalidRequest wrapper encoded into the body; otherwise delegate to
processBuildRequest on the outcome of the build service. -/
def BuildPost (cacheMaxAge : Int) (decoded : Except GoError BuildRequest)
    (buildSvc : BuildRequest → Except GoError Artifact) : ResponseWriter BuildResponse :=
  let w := headerAdd ResponseWriter.empty "Content-Type" "application/json"
  match decoded with
  | .error e =>
      let w := writeHeader w 400
      write w { artifact := none, error := some (NewWrappedError ErrInvalidRequest e) }
  | .ok req => processBuildRequest cacheMaxAge w (buildSvc req)

/-- strings.Cut on a single-character separator, over the character list. -/
def cutChars (sep : Char) : List Char → List Char × List Char × Bool
  | [] => ([], [], false)
  | c :: rest =>
    if c = sep then ([], rest, true)
    else
      let r := cutChars sep rest
      (c :: r.1, r.2.1, r.2.2)

/-- strings.Cut(s, sep): the part before the first separator, the part
after it, and whether the separator was found; (s, "", false) when not. -/
def stringsCut (s : String) (sep : Char) : String × String :=
  let r := cutChars sep s.data
  if r.2.2 then (String.mk r.1, String.mk r.2.1) else (s, "")

/-- The build request assembled by BuildGet from the query parameters,
src/unnamed/part_001 lines 87 to 93: each dep value is cut at the first
colon into name and constraints (the found flag is ignored). -/
def buildGetRequest (platform k6 : String) (deps : List String) : BuildRequest :=
  { platform := platform, k6Constrains := k6,
    dependencies := deps.map (fun d =>
      let r := stringsCut d ':'
      { name := r.1, constraints := r.2 }) }

/-- BuildGet, src/unnamed/part_001 lines 84 to 96: add the Content-Type
header, build the request from the query values (this never fails) and
delegate to processBuildRequest. -/
def BuildGet (cacheMaxAge : Int) (platform k6 : String) (deps : List String)
    (buildSvc : BuildRequest → Except GoError Artifact) : ResponseWriter BuildResponse :=
  let w := headerAdd ResponseWriter.empty "Content-Type" "application/json"
  processBuildRequest cacheMaxAge w (buildSvc (buildGetRequest platform k6 deps))

/-- Resolve, src/unnamed/part_001 lines 138 to 177: add the Content-Type
header; on a decode error write status 400 and return — the handler assigns
the ErrInvalidRequest wrapper to the response value but returns before the
final Encode, so nothing is written to the body.  Otherwise map the resolve
outcome like processBuildRequest does, with ErrResolveFailed for the
500 case, and encode the response. -/
def Resolve (decoded : Except GoError ResolveRequest)
    (resolveSvc : ResolveRequest → Except GoError (List (String × String))) :
    ResponseWriter ResolveResponse :=
  let w := headerAdd ResponseWriter.empty "Content-Type" "application/json"
  match decoded with
  | .error _ => writeHeader w 400
  | .ok req =>
      match resolveSvc req with
      | .ok deps =>
          let w := writeHeader w 200
          write w { dependencies := deps, error := none }
      | .error e =>
          if errorsIs e ErrInvalidParameters then
            let w := writeHeader w 200
            write w { dependencies := [], error := some (NewWrappedError ErrCannotSatisfy e) }
          else
            let w := writeHeader w 500
            write w { dependencies := [], error := some (NewWrappedError ErrResolveFailed e) }

end Server

namespace StoreSrv

open Http

/-! ## pkg/store/server (src/unnamed/part_004, package server) -/

/-- A stored object as returned by store.Get: id, checksum and download
url (pkg/store is not under src/; shape modelled from the spec section
3, Stored object). -/
structure StoreObject where
  id : String
  checksum : String
  url : String
deriving Repr, DecidableEq

/-- StoreServer.Download, src/unnamed/part_004 lines 148 to 178.  The id
comes from the path; getResult is the outcome of store.Get and
downloadResult the outcome of store.Download (the byte stream).  Note the
source calls WriteHeader(200) at line 174 before adding the Content-Type
and ETag headers at lines 175 and 176, then copies the stream into the
body. -/
def Download (id : String) (getResult : Except GoError StoreObject)
    (downloadResult : Except GoError (List Nat)) : ResponseWriter Nat :=
  let w : ResponseWriter Nat := ResponseWriter.empty
  if id == "" then writeHeader w 400
  else
    match getResult with
    | .error e =>
        if errorsIs e ErrObjectNotFound then writeHeader w 404 else writeHeader w 500
    | .ok object =>
        match downloadResult with
        | .error _ => writeHeader w 500
        | .ok content =>
            let w := writeHeader w 200
            let w := headerAdd w "Content-Type" "application/octet-stream"
            let w := headerAdd w "ETag" object.id
            content.foldl (fun w b => write w b) w

end StoreSrv

namespace Cmd

/-! ## cmd/server (src/cmd/server/server.go) -/

/-- serverConfig, src/cmd/server/server.go lines 200 to 219 (the fields
getLock reads, plus the four s3-lock duration flags). -/
structure serverConfig where
  buildLock : String
  s3Bucket : String
  s3Endpoint : String
  s3Region : String
  s3LockLease : Int
  s3LockBackoff : Int
  s3LockGrace : Int
  s3LockMaxLease : Int
deriving Repr, DecidableEq

/-- The lock selected by getLock: the in-process memory lock, or an S3
lock with the parameters NewS3Lock produced. -/
inductive LockChoice where
  | memory
  | s3 (lk : Lock.S3Lock)
deriving Repr, DecidableEq

/-- serverConfig.getLock, src/cmd/server/server.go lines 441 to 458: for
build-lock local, the memory lock; for s3, NewS3Lock on a lock.S3Config
carrying only Bucket, Endpoint and Region (the duration fields are left at
their zero values); anything else is an invalid lock type error.  clientNew
is the outcome of the client setup inside NewS3Lock, an input of the
environment. -/
def getLock (cfg : serverConfig) (clientNew : Option GoError) : Except GoError LockChoice :=
  if cfg.buildLock == "local" then .ok .memory
  else if cfg.buildLock == "s3" then
    match Lock.NewS3Lock
        { clientErr := clientNew, bucket := cfg.s3Bucket, endpoint := cfg.s3Endpoint,
          region := cfg.s3Region, lease := 0, backoff := 0, grace := 0, maxLease := 0 } with
    | .ok lk => .ok (.s3 lk)
    | .error e => .error (.wrapped (.plain "creating s3 lock") e)
  else .error (.plain ("invalid lock type: " ++ cfg.buildLock))

end Cmd

namespace Util

/-! ## pkg/util (src/pkg/util/download.go) -/

/-- Sentinel from src/pkg/util/download.go line 12. -/
def ErrDownloadFailed : GoError := .sentinel "ErrDownloadFailed"

/-- Sentinel from src/pkg/util/download.go line 13. -/
def ErrWritingFile : GoError := .sentinel "ErrWritingFile"

/-- Filesystem actions Download can take on the output file. -/
inductive FileAction where
  | openOutput (path : String)
  | copyToOutput
deriving Repr, DecidableEq

/-- util.Download, src/pkg/util/download.go lines 17 to 48, as the trace of
filesystem actions on the output path plus the returned error.  The inputs
are the outcomes of the external calls: building the request, performing it
(on success, the response status code), opening the output file with
O_WRONLY and O_CREATE, and io.Copy.  On a non-200 status the source wraps
the err variable, which is nil at that point (line 28), so the returned
error has ErrDownloadFailed and a nil cause; the function returns before
touching the output file. -/
def Download (url output : String) (newRequestErr : Option GoError)
    (doResult : Except GoError Nat) (openErr : Option GoError)
    (copyErr : Option GoError) : List FileAction × Option GoError :=
  match newRequestErr with
  | some e => ([], some (.wrapped ErrDownloadFailed e))
  | none =>
    match doResult with
    | .error e => ([], some (.wrapped ErrDownloadFailed e))
    | .ok statusCode =>
      if statusCode != 200 then ([], some (.wrapped ErrDownloadFailed .nilError))
      else
        match openErr with
        | some e => ([.openOutput output], some (.wrapped ErrWritingFile e))
        | none =>
          match copyErr with
          | some e => ([.openOutput output, .copyToOutput], some (.wrapped ErrWritingFile e))
          | none => ([.openOutput output, .copyToOutput], none)

end Util

/-! ## Concrete inputs used by the witnesses -/

/-- A Try environment in which the conditional create fails because the
blob exists, its attributes are readable, and the lease is far older than
the grace period; the opportunistic delete fails. -/
def tryEnvBusy : Lock.TryEnv :=
  { put := .preconditionFailed,
    attrs := .ok { etag := "etagX", lastModified := 0 },
    delResult := some (.plain "delete failed"), now := 100 }

/-- A lock environment in which the blob is held by someone else until the
context is cancelled at time 5, after which every store call fails with the
context error. -/
def cancelEnv : Int → Lock.TryEnv := fun t =>
  if 5 ≤ t then
    { put := .otherError (.plain "context canceled"),
      attrs := .error (.plain "context canceled"), delResult := none, now := t }
  else
    { put := .preconditionFailed,
      attrs := .error (.plain "not read"), delResult := none, now := t }

/-- A build service whose dependency resolution finds no satisfying
version: per the spec (section 7) the builder surfaces this as an error
matching ErrInvalidParameters (the builder package is not under src/; the
mapping is corroborated by src/pkg/server/server_test.go). -/
def svcCannotSatisfy : Server.BuildRequest → Except GoError Server.Artifact :=
  fun _ => .error (.wrapped ErrInvalidParameters (.plain "unsatisfiable constraint"))

/-- A concrete build request used by witnesses. -/
def buildReq0 : Server.BuildRequest :=
  { platform := "linux/amd64", k6Constrains := "v99.0.0", dependencies := [] }

namespace Http

/-! ## Helper lemmas about the ResponseWriter model -/

@[simp]
theorem empty_status {β : Type} : (ResponseWriter.empty : ResponseWriter β).status = none := rfl

@[simp]
theorem empty_body {β : Type} : (ResponseWriter.empty : ResponseWriter β).body = [] := rfl

@[simp]
theorem headerAdd_status {β : Type} (w : ResponseWriter β) (k v : String) :
    (headerAdd w k v).status = w.status := rfl

@[simp]
theorem headerAdd_body {β : Type} (w : ResponseWriter β) (k v : String) :
    (headerAdd w k v).body = w.body := rfl

@[simp]
theorem writeHeader_status {β : Type} (w : ResponseWriter β) (code : Nat) :
    (writeHeader w code).status = some (w.status.getD code) := by
  cases h : w.status <;> simp [writeHeader, h]

@[simp]
theorem writeHeader_body {β : Type} (w : ResponseWriter β) (code : Nat) :
    (writeHeader w code).body = w.body := by
  cases h : w.status <;> simp [writeHeader, h]

@[simp]
theorem write_status {β : Type} (w : ResponseWriter β) (x : β) :
    (write w x).status = some (w.status.getD 200) := by
  simp [write]

@[simp]
theorem write_body {β : Type} (w : ResponseWriter β) (x : β) :
    (write w x).body = w.body ++ [x] := by
  simp [write]

end Http

namespace Server

@[simp]
theorem addCacheHeader_status (cma : Int) (w : Http.ResponseWriter BuildResponse)
    (a : Artifact) : (addCacheHeader cma w a).status = w.status := by
  simp only [addCacheHeader]
  split <;> rfl

@[simp]
theorem addCacheHeader_body (cma : Int) (w : Http.ResponseWriter BuildResponse)
    (a : Artifact) : (addCacheHeader cma w a).body = w.body := by
  simp only [addCacheHeader]
  split <;> rfl

end Server

/-! ## Claim theorems -/

/-- C5: NewS3Lock substitutes defaults for every zero-valued duration in its
configuration — lease 1 minute, backoff 1 second, grace 3 times the
effective lease, max lease 5 minutes — and keeps any nonzero configured
value unchanged (src/pkg/lock/s3.go lines 64 to 109). -/
theorem newS3Lock_zero_durations_defaulted (conf : Lock.S3Config)
    (hbucket : conf.bucket ≠ "") (hclient : conf.clientErr = none) :
    Lock.NewS3Lock conf = .ok
      { bucket := conf.bucket,
        lease := if conf.lease = 0 then 60000000000 else conf.lease,
        backoff := if conf.backoff = 0 then 1000000000 else conf.backoff,
        grace := if conf.grace = 0
                 then (if conf.lease = 0 then 60000000000 else conf.lease) * 3
                 else conf.grace,
        maxLease := if conf.maxLease = 0 then 300000000000 else conf.maxLease } := by
  simp [Lock.NewS3Lock, hclient, hbucket, Lock.defaultLease, Lock.defaultBackoff,
    Lock.defaultMaxLease]

/-- Witness for C5: a configuration with a zero lease, grace and max lease
but a nonzero backoff gets the defaults for the zero fields only. -/
theorem newS3Lock_zero_durations_defaulted_witness :
    Lock.NewS3Lock
      { clientErr := none, bucket := "bkt", endpoint := "", region := "",
        lease := 0, backoff := 7, grace := 0, maxLease := 0 } =
    .ok { bucket := "bkt", lease := 60000000000, backoff := 7,
          grace := 180000000000, maxLease := 300000000000 } := by
  simpa using newS3Lock_zero_durations_defaulted
    { clientErr := none, bucket := "bkt", endpoint := "", region := "",
      lease := 0, backoff := 7, grace := 0, maxLease := 0 } (by decide) rfl

/-- C9: when the build server command is configured with build-lock s3, the
lock is constructed from only the bucket, endpoint and region settings; the
s3-lock-lease, s3-lock-backoff, s3-lock-grace and s3-lock-max-lease
durations in the configuration are not forwarded to NewS3Lock, so the
resulting lock always carries the package defaults
(src/cmd/server/server.go lines 441 to 458). -/
theorem getLock_s3_uses_package_defaults (cfg : Cmd.serverConfig)
    (hs3 : cfg.buildLock = "s3") (hbucket : cfg.s3Bucket ≠ "") :
    Cmd.getLock cfg none = .ok (.s3
      { bucket := cfg.s3Bucket, lease := 60000000000, backoff := 1000000000,
        grace := 180000000000, maxLease := 300000000000 }) := by
  simp [Cmd.getLock, hs3, Lock.NewS3Lock, hbucket, Lock.defaultLease,
    Lock.defaultBackoff, Lock.defaultMaxLease]

/-- Witness for C9: a configuration with distinctive s3-lock durations still
yields the package defaults. -/
theorem getLock_s3_uses_package_defaults_witness :
    Cmd.getLock
      { buildLock := "s3", s3Bucket := "bkt", s3Endpoint := "ep", s3Region := "rg",
        s3LockLease := 5, s3LockBackoff := 6, s3LockGrace := 7, s3LockMaxLease := 8 }
      none =
    .ok (.s3 { bucket := "bkt", lease := 60000000000, backoff := 1000000000,
               grace := 180000000000, maxLease := 300000000000 }) := by
  simpa using getLock_s3_uses_package_defaults
    { buildLock := "s3", s3Bucket := "bkt", s3Endpoint := "ep", s3Region := "rg",
      s3LockLease := 5, s3LockBackoff := 6, s3LockGrace := 7, s3LockMaxLease := 8 }
    rfl (by decide)

/-- C4: whenever S3Lock.Try finds the lock blob already held (the
conditional create fails with PreconditionFailed), Try returns acquired
false with a nil error; the returned value does not depend on the outcome
of the opportunistic delete; and when the attributes are readable and the
lease age exceeds the grace period, a conditional delete guarded by the
observed entity tag is attempted (src/pkg/lock/s3.go lines 129 to 201). -/
theorem try_precondition_failed_not_acquired (grace : Int) (env : Lock.TryEnv)
    (hput : env.put = .preconditionFailed) :
    (Lock.s3Try grace env).acquired = false ∧
    (Lock.s3Try grace env).err = none ∧
    (∀ d, Lock.s3Try grace { env with delResult := d } = Lock.s3Try grace env) ∧
    (∀ a, env.attrs = .ok a → grace < env.now - a.lastModified →
      (Lock.s3Try grace env).deleteAttempt = some a.etag) := by
  refine ⟨?_, ?_, ?_, ?_⟩
  · simp [Lock.s3Try, hput]
  · simp [Lock.s3Try, hput]
  · intro d; rfl
  · intro a ha hgt
    simp [Lock.s3Try, hput, ha, hgt]

/-- Witness for C4: a held blob whose lease is 100 time units old against a
grace of 10, with a failing opportunistic delete. -/
theorem try_precondition_failed_not_acquired_witness :
    (Lock.s3Try 10 tryEnvBusy).acquired = false ∧
    (Lock.s3Try 10 tryEnvBusy).err = none ∧
    Lock.s3Try 10 { tryEnvBusy with delResult := none } = Lock.s3Try 10 tryEnvBusy ∧
    (Lock.s3Try 10 tryEnvBusy).deleteAttempt = some "etagX" := by
  obtain ⟨h1, h2, h3, h4⟩ := try_precondition_failed_not_acquired 10 tryEnvBusy rfl
  exact ⟨h1, h2, h3 none, h4 { etag := "etagX", lastModified := 0 } rfl (by decide)⟩

/-- C6: the release function returned by a successful S3Lock acquisition
first cancels the renewal loop and then conditionally deletes the lock blob
guarded by the held entity tag; a failed delete is reported as an error
matching ErrLocking, and a successful delete returns nil
(src/pkg/lock/s3.go lines 157 to 170). -/
theorem release_cancels_then_conditional_delete (bucket lockID etag : String)
    (d : Option GoError) :
    Lock.release bucket lockID etag d =
      ([.cancelUpdate, .deleteObject bucket lockID (some etag)],
       d.map (fun e => NewWrappedError Lock.ErrLocking e)) ∧
    (∀ e, errorsIs (NewWrappedError Lock.ErrLocking e) Lock.ErrLocking = true) ∧
    (Lock.release bucket lockID etag none).2 = none := by
  refine ⟨rfl, ?_, rfl⟩
  intro e
  simp [NewWrappedError, errorsIs, Lock.ErrLocking]

/-- C10: for every URL whose HTTP GET completes with a status other than
200, util.Download returns an error matching ErrDownloadFailed and performs
no action on the output file (src/pkg/util/download.go lines 17 to 48). -/
theorem download_non_200_no_file_touched (url output : String) (status : Nat)
    (openErr copyErr : Option GoError) (hstatus : status ≠ 200) :
    Util.Download url output none (.ok status) openErr copyErr =
      ([], some (.wrapped Util.ErrDownloadFailed .nilError)) ∧
    errorsIs (.wrapped Util.ErrDownloadFailed .nilError) Util.ErrDownloadFailed = true := by
  constructor
  · simp [Util.Download, hstatus]
  · simp [errorsIs, Util.ErrDownloadFailed]

/-- Witness for C10: a 404 response yields the ErrDownloadFailed wrapper and
an empty file-action trace. -/
theorem download_non_200_no_file_touched_witness :
    Util.Download "http://host/file" "/tmp/out" none (.ok 404) none none =
      ([], some (.wrapped Util.ErrDownloadFailed .nilError)) :=
  (download_non_200_no_file_touched "http://host/file" "/tmp/out" 404 none none
    (by decide)).1

/-- C1 counterexample: the claim states that every successful renewal put
captures the new entity tag and the next tick is guarded by that tag.  In
the source the updater guards every renewal with the tag obtained at
acquisition: after a first renewal whose response carries the tag etag1,
the second renewal is still guarded by etag0 (src/pkg/lock/s3.go lines 227
to 234, the put response is discarded). -/
theorem updater_second_put_uses_acquisition_tag_cex :
    (Lock.updater "bkt" "id.lock" "etag0" 1 100
        [.tick 1 (.ok "etag1"), .tick 2 (.ok "etag2")]).map Lock.S3PutRequest.ifMatch
      = [some "etag0", some "etag0"] ∧ ("etag1" : String) ≠ "etag0" := by
  decide

/-- C1 amended: every conditional put issued by the renewal loop is guarded
by the entity tag captured at acquisition; the tag returned by a successful
renewal is discarded and never used as a guard (src/pkg/lock/s3.go lines
204 to 242). -/
theorem updater_always_guards_with_acquisition_tag
    (bucket lockID lockETag : String) (lease maxLease : Int)
    (events : List Lock.UpdaterEvent) (req : Lock.S3PutRequest)
    (hreq : req ∈ Lock.updater bucket lockID lockETag lease maxLease events) :
    req.ifMatch = some lockETag ∧ req.key = lockID ∧ req.ifNoneMatch = none := by
  induction events with
  | nil => simp [Lock.updater] at hreq
  | cons ev rest ih =>
    cases ev with
    | ctxDone => simp [Lock.updater] at hreq
    | tick elapsed res =>
      simp only [Lock.updater] at hreq
      by_cases h : elapsed > maxLease
      · rw [if_pos h] at hreq
        simp at hreq
      · rw [if_neg h] at hreq
        rcases List.mem_cons.mp hreq with h1 | h2
        · subst h1
          exact ⟨rfl, rfl, rfl⟩
        · cases res with
          | ok t => exact ih h2
          | preconditionFailed => simp at h2
          | otherError e => simp at h2

/-- Witness for the C1 amended claim at a concrete trace. -/
theorem updater_always_guards_with_acquisition_tag_witness :
    (Lock.S3PutRequest.mk "bkt" "id.lock" (some "etag0") none).ifMatch = some "etag0" ∧
    (Lock.S3PutRequest.mk "bkt" "id.lock" (some "etag0") none).key = "id.lock" ∧
    (Lock.S3PutRequest.mk "bkt" "id.lock" (some "etag0") none).ifNoneMatch = none :=
  updater_always_guards_with_acquisition_tag "bkt" "id.lock" "etag0" 1 100
    [.tick 1 (.ok "etag1")] (Lock.S3PutRequest.mk "bkt" "id.lock" (some "etag0") none)
    (by decide)

/-- C3: if the calling context is cancelled at time c while S3Lock.Lock is
still waiting for the lock (the loop was started at some t0 at or before
c), then — because a cancelled context makes every further store call
return a non-precondition error, which Try wraps and Lock propagates — the
loop stops retrying and returns at a time no later than c + backoff, that
is, within one backoff interval of the cancellation
(src/pkg/lock/s3.go lines 112 to 125). -/
theorem lock_cancelled_returns_within_one_backoff
    (backoff grace c : Int) (env : Int → Lock.TryEnv) (e : GoError)
    (hb : 0 < backoff)
    (hcancel : ∀ t, c ≤ t → (env t).put = .otherError e) :
    ∀ fuel : Nat, ∀ t0 : Int, t0 ≤ c + backoff → c < t0 + (fuel : Int) * backoff →
      ∃ r res, Lock.lockLoop backoff grace env fuel t0 = some (r, res) ∧
        r ≤ c + backoff := by
  intro fuel
  induction fuel with
  | zero =>
    intro t0 h1 h2
    have hc : c ≤ t0 := by
      have : c < t0 := by simpa using h2
      omega
    refine ⟨t0, Lock.s3Try grace (env t0), ?_, h1⟩
    simp [Lock.lockLoop, Lock.s3Try, hcancel t0 hc]
  | succ n ih =>
    intro t0 h1 h2
    cases hput : (env t0).put with
    | ok etag =>
      refine ⟨t0, Lock.s3Try grace (env t0), ?_, h1⟩
      simp [Lock.lockLoop, Lock.s3Try, hput]
    | otherError e2 =>
      refine ⟨t0, Lock.s3Try grace (env t0), ?_, h1⟩
      simp [Lock.lockLoop, Lock.s3Try, hput]
    | preconditionFailed =>
      have ht0c : t0 < c := by
        by_contra hlt
        have h := hcancel t0 (le_of_not_lt hlt)
        rw [hput] at h
        simp at h
      have h2n : c < (t0 + backoff) + (n : Int) * backoff := by
        have hcast : ((n + 1 : Nat) : Int) * backoff = (n : Int) * backoff + backoff := by
          push_cast
          ring
        rw [hcast] at h2
        linarith
      obtain ⟨r, res, hr, hrle⟩ := ih (t0 + backoff) (by omega) h2n
      have hstep : Lock.lockLoop backoff grace env (n + 1) t0 =
          Lock.lockLoop backoff grace env n (t0 + backoff) := by
        simp [Lock.lockLoop, Lock.s3Try, hput]
      exact ⟨r, res, by rw [hstep]; exact hr, hrle⟩

/-- Witness for C3: with backoff 2 and cancellation at time 5, a loop
started at time 0 against cancelEnv returns no later than time 7. -/
theorem lock_cancelled_returns_within_one_backoff_witness :
    ∃ r res, Lock.lockLoop 2 0 cancelEnv 4 0 = some (r, res) ∧ r ≤ 7 := by
  have h := lock_cancelled_returns_within_one_backoff 2 0 5 cancelEnv
    (.plain "context canceled") (by decide)
    (fun t ht => by simp [cancelEnv, ht]) 4 0 (by decide) (by norm_num)
  simpa using h

/-- C2: for every build request (POST /build or GET /build) whose
dependency resolution finds no satisfying version — surfaced by the build
service as an error matching ErrInvalidParameters — the server responds
with status 200 and a body whose error matches ErrCannotSatisfy; status 500
occurs only when the build service fails with an error not matching
ErrInvalidParameters (and carries ErrBuildFailed); status 400 occurs only
for a malformed POST body (and carries ErrInvalidRequest); GET /build never
answers 400 (src/unnamed/part_001 lines 61 to 127). -/
theorem build_endpoints_status_mapping
    (cacheMaxAge : Int) (svc : Server.BuildRequest → Except GoError Server.Artifact) :
    (∀ req e, svc req = .error e → errorsIs e ErrInvalidParameters = true →
      (Server.BuildPost cacheMaxAge (.ok req) svc).status = some 200 ∧
      (Server.BuildPost cacheMaxAge (.ok req) svc).body =
        [{ artifact := none, error := some (NewWrappedError ErrCannotSatisfy e) }] ∧
      errorsIs (NewWrappedError ErrCannotSatisfy e) ErrCannotSatisfy = true) ∧
    (∀ platform k6 deps e, svc (Server.buildGetRequest platform k6 deps) = .error e →
      errorsIs e ErrInvalidParameters = true →
      (Server.BuildGet cacheMaxAge platform k6 deps svc).status = some 200 ∧
      (Server.BuildGet cacheMaxAge platform k6 deps svc).body =
        [{ artifact := none, error := some (NewWrappedError ErrCannotSatisfy e) }]) ∧
    (∀ dec, (Server.BuildPost cacheMaxAge dec svc).status = some 500 →
      ∃ req e, dec = .ok req ∧ svc req = .error e ∧
        errorsIs e ErrInvalidParameters = false ∧
        (Server.BuildPost cacheMaxAge dec svc).body =
          [{ artifact := none, error := some (NewWrappedError ErrBuildFailed e) }]) ∧
    (∀ platform k6 deps, (Server.BuildGet cacheMaxAge platform k6 deps svc).status = some 500 →
      ∃ e, svc (Server.buildGetRequest platform k6 deps) = .error e ∧
        errorsIs e ErrInvalidParameters = false) ∧
    (∀ dec, (Server.BuildPost cacheMaxAge dec svc).status = some 400 →
      ∃ e, dec = .error e ∧
        (Server.BuildPost cacheMaxAge dec svc).body =
          [{ artifact := none, error := some (NewWrappedError ErrInvalidRequest e) }] ∧
        errorsIs (NewWrappedError ErrInvalidRequest e) ErrInvalidRequest = true) ∧
    (∀ platform k6 deps, (Server.BuildGet cacheMaxAge platform k6 deps svc).status ≠ some 400) := by
  refine ⟨?_, ?_, ?_, ?_, ?_, ?_⟩
  · intro req e hsvc herr
    refine ⟨?_, ?_, ?_⟩
    · simp [Server.BuildPost, Server.processBuildRequest, hsvc, herr]
    · simp [Server.BuildPost, Server.processBuildRequest, hsvc, herr]
    · simp [NewWrappedError, errorsIs, ErrCannotSatisfy]
  · intro platform k6 deps e hsvc herr
    constructor
    · simp [Server.BuildGet, Server.processBuildRequest, hsvc, herr]
    · simp [Server.BuildGet, Server.processBuildRequest, hsvc, herr]
  · intro dec h500
    match dec with
    | .error e =>
      simp [Server.BuildPost] at h500
    | .ok req =>
      cases hsvc : svc req with
      | ok a =>
        rw [show Server.BuildPost cacheMaxAge (.ok req) svc =
            Server.processBuildRequest cacheMaxAge
              (Http.headerAdd Http.ResponseWriter.empty "Content-Type" "application/json")
              (svc req) from rfl, hsvc] at h500
        simp [Server.processBuildRequest] at h500
      | error e =>
        cases herr : errorsIs e ErrInvalidParameters with
        | true =>
          rw [show Server.BuildPost cacheMaxAge (.ok req) svc =
              Server.processBuildRequest cacheMaxAge
                (Http.headerAdd Http.ResponseWriter.empty "Content-Type" "application/json")
                (svc req) from rfl, hsvc] at h500
          simp [Server.processBuildRequest, herr] at h500
        | false =>
          refine ⟨req, e, rfl, hsvc, herr, ?_⟩
          simp [Server.BuildPost, Server.processBuildRequest, hsvc, herr]
  · intro platform k6 deps h500
    cases hsvc : svc (Server.buildGetRequest platform k6 deps) with
    | ok a =>
      rw [show Server.BuildGet cacheMaxAge platform k6 deps svc =
          Server.processBuildRequest cacheMaxAge
            (Http.headerAdd Http.ResponseWriter.empty "Content-Type" "application/json")
            (svc (Server.buildGetRequest platform k6 deps)) from rfl, hsvc] at h500
      simp [Server.processBuildRequest] at h500
    | error e =>
      cases herr : errorsIs e ErrInvalidParameters with
      | true =>
        rw [show Server.BuildGet cacheMaxAge platform k6 deps svc =
            Server.processBuildRequest cacheMaxAge
              (Http.headerAdd Http.ResponseWriter.empty "Content-Type" "application/json")
              (svc (Server.buildGetRequest platform k6 deps)) from rfl, hsvc] at h500
        simp [Server.processBuildRequest, herr] at h500
      | false => exact ⟨e, rfl, herr⟩
  · intro dec h400
    match dec with
    | .ok req =>
      cases hsvc : svc req with
      | ok a =>
        rw [show Server.BuildPost cacheMaxAge (.ok req) svc =
            Server.processBuildRequest cacheMaxAge
              (Http.headerAdd Http.ResponseWriter.empty "Content-Type" "application/json")
              (svc req) from rfl, hsvc] at h400
        simp [Server.processBuildRequest] at h400
      | error e =>
        rw [show Server.BuildPost cacheMaxAge (.ok req) svc =
            Server.processBuildRequest cacheMaxAge
              (Http.headerAdd Http.ResponseWriter.empty "Content-Type" "application/json")
              (svc req) from rfl, hsvc] at h400
        cases herr : errorsIs e ErrInvalidParameters with
        | true => simp [Server.processBuildRequest, herr] at h400
        | false => simp [Server.processBuildRequest, herr] at h400
    | .error e =>
      refine ⟨e, rfl, ?_, ?_⟩
      · simp [Server.BuildPost]
      · simp [NewWrappedError, errorsIs, ErrInvalidRequest]
  · intro platform k6 deps h400
    cases hsvc : svc (Server.buildGetRequest platform k6 deps) with
    | ok a =>
      rw [show Server.BuildGet cacheMaxAge platform k6 deps svc =
          Server.processBuildRequest cacheMaxAge
            (Http.headerAdd Http.ResponseWriter.empty "Content-Type" "application/json")
            (svc (Server.buildGetRequest platform k6 deps)) from rfl, hsvc] at h400
      simp [Server.processBuildRequest] at h400
    | error e =>
      rw [show Server.BuildGet cacheMaxAge platform k6 deps svc =
          Server.processBuildRequest cacheMaxAge
            (Http.headerAdd Http.ResponseWriter.empty "Content-Type" "application/json")
            (svc (Server.buildGetRequest platform k6 deps)) from rfl, hsvc] at h400
      cases herr : errorsIs e ErrInvalidParameters with
      | true => simp [Server.processBuildRequest, herr] at h400
      | false => simp [Server.processBuildRequest, herr] at h400

/-- Witness for C2: a service whose resolution cannot be satisfied yields
status 200 with an error matching ErrCannotSatisfy on POST /build. -/
theorem build_endpoints_status_mapping_witness :
    (Server.BuildPost 0 (.ok buildReq0) svcCannotSatisfy).status = some 200 ∧
    (Server.BuildPost 0 (.ok buildReq0) svcCannotSatisfy).body =
      [{ artifact := none,
         error := some (NewWrappedError ErrCannotSatisfy
           (.wrapped ErrInvalidParameters (.plain "unsatisfiable constraint"))) }] ∧
    errorsIs (NewWrappedError ErrCannotSatisfy
      (.wrapped ErrInvalidParameters (.plain "unsatisfiable constraint")))
      ErrCannotSatisfy = true :=
  (build_endpoints_status_mapping 0 svcCannotSatisfy).1 buildReq0
    (.wrapped ErrInvalidParameters (.plain "unsatisfiable constraint")) rfl (by decide)

/-- C7 (code bug): a malformed POST /resolve body is answered with status
400 but with an empty body — the handler assigns the ErrInvalidRequest
wrapper to its response value and returns before encoding it
(src/unnamed/part_001 lines 147 to 151) — while the same malformed body on
POST /build is answered with status 400 and the ErrInvalidRequest wrapper
encoded in the body (src/unnamed/part_001 lines 68 to 76). -/
theorem resolve_malformed_request_empty_body :
    (Server.Resolve (.error (.plain "invalid character")) (fun _ => .ok [])).status
      = some 400 ∧
    (Server.Resolve (.error (.plain "invalid character")) (fun _ => .ok [])).body = [] ∧
    (Server.BuildPost 0 (.error (.plain "invalid character")) svcCannotSatisfy).status
      = some 400 ∧
    (Server.BuildPost 0 (.error (.plain "invalid character")) svcCannotSatisfy).body =
      [{ artifact := none,
         error := some (NewWrappedError ErrInvalidRequest (.plain "invalid character")) }] := by
  refine ⟨rfl, rfl, rfl, rfl⟩

/-- C8 (code bug): for an object present in the store, GET /id/download
answers status 200 with the byte stream as body, but the ETag header never
reaches the wire: the handler calls WriteHeader before adding the header
(src/unnamed/part_004 lines 174 to 177), and net/http discards header map
changes made after the status is committed.  The header map does record the
late addition, showing the handler intended to send it. -/
theorem download_etag_header_never_sent :
    (StoreSrv.Download "abc"
        (.ok { id := "abc", checksum := "c0", url := "http://s/abc/download" })
        (.ok [104, 105])).status = some 200 ∧
    (StoreSrv.Download "abc"
        (.ok { id := "abc", checksum := "c0", url := "http://s/abc/download" })
        (.ok [104, 105])).body = [104, 105] ∧
    (StoreSrv.Download "abc"
        (.ok { id := "abc", checksum := "c0", url := "http://s/abc/download" })
        (.ok [104, 105])).sent = [] ∧
    ("ETag", "abc") ∈ (StoreSrv.Download "abc"
        (.ok { id := "abc", checksum := "c0", url := "http://s/abc/download" })
        (.ok [104, 105])).headers := by
  refine ⟨rfl, rfl, rfl, ?_⟩
  simp [StoreSrv.Download, Http.ResponseWriter.empty, Http.writeHeader, Http.headerAdd,
    Http.write, errorsIs]
